import Mathlib

/-!
Shallow embedding of the ADS-B monitor flight_anom_gr.py: snapshot
normalisation, ground-state derivation, anomaly detection, the three
pattern detectors, the pairwise proximity classifier, the per-key
cooldown ledger and the bounded track history. Machine floats are
modelled as exact rationals; the transcendental kernel (haversine and
the atan2-based bearing) is an explicit parameter of the geometric
detectors, so that every definition stays computable. Python's float
modulo with a positive modulus is modelled by the function qmod below.
-/

namespace FlightAnom

/-- Python's a % b for rationals, b positive: the representative of a
modulo b lying in the interval from 0 (inclusive) to b (exclusive). -/
def qmod (a b : ℚ) : ℚ := a - b * ⌊a / b⌋

/-- Source function angle_diff_deg: absolute angular difference folded
into the range 0..180. -/
def angle_diff_deg (a b : ℚ) : ℚ :=
  let d := qmod |a - b| 360
  if d ≤ 180 then d else 360 - d

/-- The transcendental kernel the detectors are parameterised by:
hav models haversine_km (a great-circle distance between two
lat/lon pairs) and ang models math.degrees(math.atan2(dx, dy)),
taking the two coordinate deltas. -/
structure Geo where
  hav : ℚ × ℚ → ℚ × ℚ → ℚ
  ang : ℚ → ℚ → ℚ

/-- Source function heading: none when both deltas vanish, otherwise
the bearing in degrees reduced modulo 360. -/
def heading (g : Geo) (p1 p2 : ℚ × ℚ) : Option ℚ :=
  let dy := p2.1 - p1.1
  let dx := p2.2 - p1.2
  if dx = 0 ∧ dy = 0 then none else some (qmod (g.ang dx dy) 360)

/- ---------------------------------------------------------------
Raw telemetry values and the coercion boundary (safe_int, safe_float,
safe_bool) of the source. A RawVal models one loosely-typed JSON field
of a raw per-aircraft record; absent fields are RawVal.null, matching
dict.get returning None. Containers (lists/objects) are not modelled:
no claim depends on them.
---------------------------------------------------------------- -/

inductive RawVal
  | null
  | boolean (b : Bool)
  | num (q : ℚ)
  | str (s : String)
deriving DecidableEq

/-- Python truthiness of a raw value: None, False, 0 and the empty
string are falsy. -/
def truthy : RawVal → Bool
  | .null => false
  | .boolean b => b
  | .num q => decide (q ≠ 0)
  | .str s => !s.isEmpty

/-- Python x or y on raw values: the first operand when truthy,
otherwise the second. -/
def pyOr (a b : RawVal) : RawVal := if truthy a then a else b

/-- Model of str.lower over the character list (ASCII adequate for the
hex identifiers handled here). -/
def pyLowerStr (s : String) : String := (s.data.map Char.toLower).asString

/-- Model of str.strip: leading and trailing whitespace removed. -/
def pyStrip (s : String) : String :=
  (((s.data.dropWhile Char.isWhitespace).reverse.dropWhile Char.isWhitespace).reverse).asString

/-- A .lower() call on a raw value: succeeds only on strings; a truthy
non-string raises AttributeError in the source, modelled as none. -/
def pyLowerM : RawVal → Option String
  | .str s => some (pyLowerStr s)
  | _ => none

/-- A .strip() call on a raw value: succeeds only on strings, as
pyLowerM. -/
def pyStripM : RawVal → Option String
  | .str s => some (pyStrip s)
  | _ => none

/-- Python str() of a raw value. The numeric case renders exact
integers the way Python renders ints; non-integer rationals get the
Lean rendering (the difference is unobservable in the claims). -/
def pyStrOf : RawVal → String
  | .null => "None"
  | .boolean b => if b then "True" else "False"
  | .str s => s
  | .num q => if q.den = 1 then toString q.num else toString q

/-- Value of a digit list read in base 10 (0 for the empty list). -/
def natOfDigits (l : List Char) : ℕ :=
  l.foldl (fun n c => 10 * n + (c.toNat - 48)) 0

/-- A non-empty all-digit list read in base 10, none otherwise. -/
def digitsToNat (l : List Char) : Option ℕ :=
  if l ≠ [] ∧ l.all Char.isDigit then some (natOfDigits l) else none

/-- Model of Python int(string): optional sign followed by digits.
(Python also accepts underscores and unicode digits; irrelevant here.) -/
def pyIntParse (s : String) : Option ℤ :=
  match (pyStrip s).data with
  | '-' :: ds => (digitsToNat ds).map (fun n => -(n : ℤ))
  | '+' :: ds => (digitsToNat ds).map (fun n => (n : ℤ))
  | ds => (digitsToNat ds).map (fun n => (n : ℤ))

/-- Model of Python float(string): optional sign, digits with an
optional decimal point ("1.", ".5" accepted, "." and non-numerals
rejected). Exponents, inf and nan are not modelled: no claim uses
them, and every value they could produce is representable directly as
RawVal.num. -/
def pyFloatParse (s : String) : Option ℚ :=
  let core : List Char → ℚ → Option ℚ := fun u sign =>
    match u.span (fun c => c != '.') with
    | (ip, []) => (digitsToNat ip).map (fun n => sign * (n : ℚ))
    | (ip, _ :: fp) =>
        if ip = [] ∧ fp = [] then none
        else if ip.all Char.isDigit ∧ fp.all Char.isDigit then
          some (sign * ((natOfDigits ip : ℚ) + (natOfDigits fp : ℚ) / (10 : ℚ) ^ fp.length))
        else none
  match (pyStrip s).data with
  | '-' :: rest => core rest (-1)
  | '+' :: rest => core rest 1
  | rest => core rest 1

/-- Python int() truncates toward zero. -/
def ratTrunc (q : ℚ) : ℤ := if 0 ≤ q then ⌊q⌋ else ⌈q⌉

/-- Source function safe_int: int(val) with TypeError/ValueError
swallowed to None. Booleans coerce as 0/1, as in Python. -/
def safe_int : RawVal → Option ℤ
  | .num q => some (ratTrunc q)
  | .boolean b => some (if b then 1 else 0)
  | .str s => pyIntParse s
  | .null => none

/-- Source function safe_float: float(val) with TypeError/ValueError
swallowed to None. -/
def safe_float : RawVal → Option ℚ
  | .num q => some q
  | .boolean b => some (if b then 1 else 0)
  | .str s => pyFloatParse s
  | .null => none

/-- Source function safe_bool: genuine booleans pass through, then the
stripped lowercase str() of the value is matched against the literal
true/false spellings. -/
def safe_bool : RawVal → Option Bool
  | .boolean b => some b
  | v =>
      let s := pyLowerStr (pyStrip (pyStrOf v))
      if s = "true" ∨ s = "1" ∨ s = "yes" then some true
      else if s = "false" ∨ s = "0" ∨ s = "no" then some false
      else none

/- ---------------------------------------------------------------
Normalised per-aircraft state (the Aircraft dataclass of the source)
and the normaliser loop body of main (the try/except around the
Aircraft construction).
---------------------------------------------------------------- -/

structure Aircraft where
  hex : String := ""
  flight : String := ""
  lat : Option ℚ := none
  lon : Option ℚ := none
  alt_baro : Option ℤ := none
  gs : Option ℚ := none
  ts : Option ℚ := none
  reg : Option String := none
  squawk : Option String := none
  ground : Option Bool := none
  model_desc : Option RawVal := none
  model_t : Option RawVal := none
  is_mil : Bool := false
deriving DecidableEq

/-- One raw record as consumed by the normaliser: each source field a
loosely-typed value, RawVal.null when absent. -/
structure RawRecord where
  hex : RawVal := .null
  flight : RawVal := .null
  lat : RawVal := .null
  lon : RawVal := .null
  alt_baro : RawVal := .null
  gs : RawVal := .null
  seen_pos_timestamp : RawVal := .null
  seen_timestamp : RawVal := .null
  r : RawVal := .null
  reg : RawVal := .null
  squawk : RawVal := .null
  ground : RawVal := .null
  desc : RawVal := .null
  t : RawVal := .null
  force_mil : RawVal := .null
  military : RawVal := .null
  isMil : RawVal := .null
  mil : RawVal := .null
  dbFlags : RawVal := .null
deriving DecidableEq

/-- The normaliser: the body of the per-record loop in main that
builds an Aircraft inside try/except. The numeric fields go through
safe_int/safe_float, which swallow coercion failures into None; the
only operations that can raise (and so drop the record, returning
none) are the string-method calls on the hex, flight and
registration fields. -/
def normalize (rec : RawRecord) : Option Aircraft :=
  match pyLowerM (pyOr rec.hex (.str "")) with
  | none => none
  | some hexs =>
      match pyStripM (pyOr rec.flight (.str "")) with
      | none => none
      | some flights =>
          match pyStripM (pyOr (pyOr rec.r rec.reg) (.str "")) with
          | none => none
          | some regs =>
              some
                { hex := hexs
                  flight := flights
                  lat := safe_float rec.lat
                  lon := safe_float rec.lon
                  alt_baro := safe_int rec.alt_baro
                  gs := safe_float rec.gs
                  ts := safe_float (pyOr rec.seen_pos_timestamp rec.seen_timestamp)
                  reg := if regs = "" then none else some regs
                  squawk := if truthy rec.squawk then some (pyStrip (pyStrOf rec.squawk)) else none
                  ground := safe_bool rec.ground
                  model_desc := if truthy rec.desc then some rec.desc else none
                  model_t := if truthy rec.t then some rec.t else none
                  is_mil := truthy rec.force_mil || truthy rec.military || truthy rec.isMil ||
                    truthy rec.mil ||
                    decide (List.IsInfix "military".data
                      (pyLowerStr (pyStrOf (pyOr rec.dbFlags (.str "")))).data) }

/- ---------------------------------------------------------------
Anomaly classifier (detect_anomalies) and its ground-state
derivation.
---------------------------------------------------------------- -/

/-- The is_ground derivation at the top of detect_anomalies: the
explicit flag is consulted with an identity test against True, then
the two altitude/speed heuristics run as elif branches. -/
def is_ground_of (ac : Aircraft) : Bool :=
  if ac.ground = some true then true
  else if (match ac.alt_baro with | some a => decide (a ≤ 100) | none => false) &&
          (match ac.gs with | some g => decide (g < 60) | none => true) then true
  else if (match ac.alt_baro with | some a => decide (a ≤ 0) | none => false) then true
  else false

/-- Round half to even, Python's round(). -/
def roundHalfEven (q : ℚ) : ℤ :=
  let f := ⌊q⌋
  let r := q - (f : ℚ)
  if r < 1 / 2 then f
  else if 1 / 2 < r then f + 1
  else if f % 2 = 0 then f else f + 1

/-- Python format spec .0f applied to an exact rational. -/
def fmt0 (q : ℚ) : String := toString (roundHalfEven q)

/-- Python format spec +.0f: an explicit sign even for nonnegative
values. -/
def fmtPlus0 (q : ℚ) : String :=
  let n := roundHalfEven q
  if 0 ≤ n then "+" ++ toString n else toString n

/-- Lexicographic codepoint order on character lists, Python's str
comparison. -/
def strLtAux : List Char → List Char → Bool
  | [], [] => false
  | [], _ :: _ => true
  | _ :: _, [] => false
  | a :: as, b :: bs =>
      if a.val < b.val then true else if b.val < a.val then false else strLtAux as bs

/-- Lexicographic codepoint order on strings. -/
def strLt (a b : String) : Bool := strLtAux a.data b.data

/-- Insertion step of the string sort below. -/
def insertStr (x : String) : List String → List String
  | [] => [x]
  | y :: ys => if strLt x y ∨ x = y then x :: y :: ys else y :: insertStr x ys

/-- Lexicographic sort of the anomaly messages, Python's sorted(). -/
def sortStrings : List String → List String
  | [] => []
  | x :: xs => insertStr x (sortStrings xs)

/-- Source function detect_anomalies. The source accumulates the
messages in a set and returns them sorted; here they are collected in
evaluation order, deduplicated and sorted (the generated messages are
pairwise distinct, so the set and the list agree). -/
def detect_anomalies (ac : Aircraft) (prev : Option Aircraft) (dt_sec : Option ℚ)
    (min_alt_ft max_alt_ft : ℤ) (min_gs_kt max_gs_kt max_vs_fpm max_dgs_kts : ℚ) :
    List String :=
  let is_ground := is_ground_of ac
  let sqwk : List String :=
    match ac.squawk with
    | some sq =>
        if sq ≠ "" ∧ pyStrip sq ∈ (["7500", "7600", "7700"] : List String)
        then ["SQUAWK: #" ++ sq] else []
    | none => []
  let gsl : List String :=
    match ac.gs with
    | some gs =>
        if max_gs_kt < gs then ["GS alta: " ++ fmt0 gs ++ " kt"]
        else if gs < min_gs_kt ∧ is_ground = false then ["GS bassa: " ++ fmt0 gs ++ " kt"]
        else []
    | none => []
  let altl : List String :=
    match ac.alt_baro with
    | some alt =>
        if max_alt_ft < alt then ["ALT alta: " ++ toString alt ++ " ft"]
        else if alt < min_alt_ft ∧ is_ground = false ∧ 0 < alt
        then ["ALT bassa: " ++ toString alt ++ " ft"]
        else []
    | none => []
  let deltas : List String :=
    match prev, dt_sec with
    | some pv, some d =>
        if 0 < d then
          (match ac.gs, pv.gs with
           | some g1, some g0 =>
               if max_dgs_kts < |g1 - g0|
               then ["ΔGS anomalo: " ++ fmtPlus0 (g1 - g0) ++ " kt"] else []
           | _, _ => []) ++
          (match ac.alt_baro, pv.alt_baro with
           | some a1, some a0 =>
               let vs := ((a1 - a0 : ℤ) : ℚ) / d * 60
               if max_vs_fpm < |vs| then ["VS anomala: " ++ fmt0 vs ++ " fpm"] else []
           | _, _ => [])
        else []
    | _, _ => []
  sortStrings ((sqwk ++ gsl ++ altl ++ deltas).dedup)

/- ---------------------------------------------------------------
Pattern detectors: LOOP/RACETRACK, LAWNMOWER (tagliaerba) and MESH.
---------------------------------------------------------------- -/

/-- Python min over a float list; the source raises ValueError on an
empty list, modelled as 0 (the guarded call sites never reach it with
a meaningful empty list). -/
def pyMin (l : List ℚ) : ℚ :=
  match l with
  | [] => 0
  | x :: xs => xs.foldl min x

/-- Python max over a float list, as pyMin. -/
def pyMax (l : List ℚ) : ℚ :=
  match l with
  | [] => 0
  | x :: xs => xs.foldl max x

/-- Source function detect_loop_or_racetrack. -/
def detect_loop_or_racetrack (g : Geo) (track : List (ℚ × ℚ))
    (loop_close_km : ℚ) (min_points : ℤ) (min_span_km : ℚ) (min_laps : ℤ) :
    Option String :=
  if (track.length : ℤ) < min_points then none
  else
    match track with
    | [] => none
    | p0 :: rest =>
      let tr := p0 :: rest
      let plast := tr.getLast (List.cons_ne_nil p0 rest)
      if loop_close_km < g.hav p0 plast then none
      else
        let lats := tr.map Prod.fst
        let lons := tr.map Prod.snd
        let span_lat := g.hav (pyMin lats, pyMin lons) (pyMax lats, pyMin lons)
        let span_lon := g.hav (pyMin lats, pyMin lons) (pyMin lats, pyMax lons)
        let major := max span_lat span_lon
        let minor := min span_lat span_lon
        if major < min_span_km ∨ minor < 2 then none
        else
          let aspect := major / (minor + 1 / 1000000)
          let shape := if aspect < 3 / 2 then "LOOP/CERCHIO" else "RACETRACK"
          let mid_lat := (pyMax lats + pyMin lats) / 2
          let crossings :=
            ((tr.zip tr.tail).filter
              (fun pq => decide ((pq.1.1 - mid_lat) * (pq.2.1 - mid_lat) < 0))).length
          if (crossings : ℤ) < min_laps * 2 then none else some shape

/-- The heads list of detect_lawnmower: consecutive-pair bearings
folded into the interval from 0 to 180 (pairs with no defined bearing
skipped). -/
def lawnHeads (g : Geo) (track : List (ℚ × ℚ)) : List ℚ :=
  (track.zip track.tail).filterMap
    (fun pq => (heading g pq.1 pq.2).map (fun h => qmod h 180))

/-- Python min with the total-angular-distance key over the heads
list: the first element minimising the key (empty list guarded by the
caller). -/
def lawnBase (heads : List ℚ) : ℚ :=
  match heads with
  | [] => 0
  | h0 :: _ =>
      heads.foldl
        (fun best y =>
          if (heads.map (fun z => angle_diff_deg y z)).sum <
             (heads.map (fun z => angle_diff_deg best z)).sum
          then y else best) h0

/-- Cluster-A membership test of detect_lawnmower. -/
def lawnAtest (base tol h : ℚ) : Bool := decide (angle_diff_deg h base < tol)

/-- Cluster-B membership test of detect_lawnmower: the elif branch, so
it includes the failure of the cluster-A test. -/
def lawnBtest (base tol h : ℚ) : Bool :=
  !lawnAtest base tol h && decide (angle_diff_deg (qmod (h + 180) 180) base < tol)

/-- Source function detect_lawnmower. -/
def detect_lawnmower (g : Geo) (track : List (ℚ × ℚ)) (min_points : ℤ)
    (heading_tolerance : ℚ) (required_passes : ℤ) (min_span_km : ℚ) : Bool :=
  if (track.length : ℤ) < min_points then false
  else
    let lats := track.map Prod.fst
    let lons := track.map Prod.snd
    let span := g.hav (pyMin lats, pyMin lons) (pyMax lats, pyMax lons)
    if span < min_span_km then false
    else
      let heads := lawnHeads g track
      if heads = [] then false
      else
        let base := lawnBase heads
        let clusterA := heads.filter (lawnAtest base heading_tolerance)
        let clusterB := heads.filter (lawnBtest base heading_tolerance)
        if (clusterA.length : ℤ) < required_passes ∨
           (clusterB.length : ℤ) < required_passes then false
        else
          let seq := heads.filterMap (fun h =>
            if lawnAtest base heading_tolerance h then some true
            else if lawnBtest base heading_tolerance h then some false else none)
          let alternations :=
            ((seq.zip seq.tail).filter (fun ab => ab.1 != ab.2)).length
          decide (required_passes - 1 ≤ (alternations : ℤ))

/-- The nested family assignment of detect_mesh: a bearing joins
family A when ((h-a)+180) mod 180 is within the tolerance, else family
B by the same test against b, else no family. -/
def family (h a b tol : ℚ) : Option String :=
  if |qmod (h - a + 180) 180| ≤ tol then some "A"
  else if |qmod (h - b + 180) 180| ≤ tol then some "B"
  else none

/-- Antiparallel-folded angular distance on the mod-180 circle: the
smaller of the two arc lengths between x and y. This is the metric the
specification describes the family assignment with. -/
def foldedDist (x y : ℚ) : ℚ := min (qmod (x - y) 180) (qmod (y - x) 180)

/-- Source function detect_mesh. The state threaded through the fold
is (family-A count, family-B count, switch count, last family). -/
def detect_mesh (g : Geo) (track : List (ℚ × ℚ)) (min_points : ℤ)
    (perpendicular_tolerance : ℚ) (min_crossings : ℤ) (min_family_frac : ℚ) : Bool :=
  if (track.length : ℤ) < min_points then false
  else
    let heads0 := (track.zip track.tail).filterMap (fun pq => heading g pq.1 pq.2)
    let heads := heads0.map (fun h => (roundHalfEven (h / 10) * 10) % 180)
    if heads = [] then false
    else
      let uniq := (heads.dedup).mergeSort (fun x y => decide (x ≤ y))
      let pairs := uniq.flatMap (fun a => uniq.filterMap (fun b =>
        if |(((a - b + 180) % 180 : ℤ) : ℚ) - 90| ≤ perpendicular_tolerance
        then some (a, b) else none))
      match pairs.head? with
      | none => false
      | some (a, b) =>
        let fin := heads.foldl
          (fun (st : ℕ × ℕ × ℕ × Option String) h =>
            match family (h : ℚ) (a : ℚ) (b : ℚ) perpendicular_tolerance with
            | some f =>
                let cA := if f = "A" then st.1 + 1 else st.1
                let cB := if f = "B" then st.2.1 + 1 else st.2.1
                if some f ≠ st.2.2.2 then (cA, cB, st.2.2.1 + 1, some f)
                else (cA, cB, st.2.2.1, st.2.2.2)
            | none => st)
          ((0, 0, 0, none) : ℕ × ℕ × ℕ × Option String)
        let total := fin.1 + fin.2.1
        if total = 0 then false
        else if (fin.1 : ℚ) / (total : ℚ) < min_family_frac ∨
                (fin.2.1 : ℚ) / (total : ℚ) < min_family_frac then false
        else decide (min_crossings ≤ (fin.2.2.1 : ℤ))

/- ---------------------------------------------------------------
Proximity classifier: the helpers same_direction / approx_following
and the body of the pairwise loop of main.
---------------------------------------------------------------- -/

/-- Source function same_direction. -/
def same_direction (h1 h2 : Option ℚ) (tol_deg : ℚ) : Bool :=
  match h1, h2 with
  | some x, some y => decide (angle_diff_deg x y ≤ tol_deg)
  | _, _ => false

/-- Source function approx_following. -/
def approx_following (g : Geo) (p_lead : ℚ × ℚ) (h_lead : Option ℚ)
    (p_trail : ℚ × ℚ) (h_trail : Option ℚ) (tol_deg : ℚ) : Bool :=
  match h_lead, h_trail with
  | some hl, some ht =>
      if tol_deg < angle_diff_deg hl ht then false
      else
        match heading g p_lead p_trail with
        | none => false
        | some bt => decide (angle_diff_deg (qmod (hl + 180) 360) bt ≤ tol_deg)
  | _, _ => false

/-- The truthiness position test of the proximity loop, not (lat and
lon): passes only when both coordinates are present and nonzero. -/
def posTruthy (lat lon : Option ℚ) : Bool :=
  match lat, lon with
  | some la, some lo => decide (la ≠ 0) && decide (lo ≠ 0)
  | _, _ => false

/-- The altitude gate of the proximity loop: both altitudes known and
within the threshold. -/
def alt_gate (a1 a2 : Option ℤ) (thr : ℚ) : Bool :=
  match a1, a2 with
  | some x, some y => decide (|(x : ℚ) - (y : ℚ)| ≤ thr)
  | _, _ => false

/-- The ground-speed gate of the proximity loop: both speeds known and
within the threshold. -/
def gs_gate (g1 g2 : Option ℚ) (thr : ℚ) : Bool :=
  match g1, g2 with
  | some x, some y => decide (|x - y| ≤ thr)
  | _, _ => false

/-- The body of the pairwise proximity loop of main for one ordered
pair, given each aircraft's current heading as derived from its track
history: skip guards, distance gate, altitude/speed/heading gates,
then the CLUSTER / INSEGUIMENTO labelling. none means no PROX event
for the pair. -/
def proxPairCheck (g : Geo)
    (proximity_km prox_angle_deg prox_alt_diff_ft prox_gs_diff_kt : ℚ)
    (ac1 ac2 : Aircraft) (h1 h2 : Option ℚ) : Option String :=
  if posTruthy ac1.lat ac1.lon = false then none
  else if posTruthy ac2.lat ac2.lon = false then none
  else if ac1.hex = ac2.hex then none
  else
    let p1 := (ac1.lat.getD 0, ac1.lon.getD 0)
    let p2 := (ac2.lat.getD 0, ac2.lon.getD 0)
    let dist := g.hav p1 p2
    if proximity_km ≤ dist then none
    else
      let alt_ok := alt_gate ac1.alt_baro ac2.alt_baro prox_alt_diff_ft
      let gs_ok := gs_gate ac1.gs ac2.gs prox_gs_diff_kt
      let dir_ok := same_direction h1 h2 prox_angle_deg
      if (alt_ok && gs_ok && dir_ok) = false then none
      else if approx_following g p1 h1 p2 h2 prox_angle_deg ||
              approx_following g p2 h2 p1 h1 prox_angle_deg
           then some "INSEGUIMENTO"
           else some "CLUSTER"

/- ---------------------------------------------------------------
Cooldown ledger and bounded track history.
---------------------------------------------------------------- -/

/-- The cooldown pattern used (inline) by every alert class in main:
the alert is allowed iff the time since the recorded last alert for
the key (0 when the key is absent) reaches the window, and the record
is overwritten with the current time exactly when the alert is
allowed. -/
def checkAndMark {K : Type} [DecidableEq K] (last : K → Option ℚ) (key : K)
    (now win : ℚ) : Bool × (K → Option ℚ) :=
  if win ≤ now - (last key).getD 0 then
    (true, fun k => if k = key then some now else last k)
  else (false, last)

/-- One append to a per-hex track history: the guard of main skips
states missing either coordinate, and the deque with maxlen 120 drops
the oldest entries on overflow. -/
def appendTrack (h : List (ℚ × ℚ)) (lat lon : Option ℚ) : List (ℚ × ℚ) :=
  match lat, lon with
  | some la, some lo =>
      let h2 := h ++ [(la, lo)]
      if 120 < h2.length then h2.drop (h2.length - 120) else h2
  | _, _ => h

/-- A track history built from scratch by a sequence of appends. -/
def runTrack (ops : List (Option ℚ × Option ℚ)) : List (ℚ × ℚ) :=
  ops.foldl (fun h op => appendTrack h op.1 op.2) []

/- ---------------------------------------------------------------
Concrete inputs used by witnesses and counterexamples.
---------------------------------------------------------------- -/

/-- A degenerate transcendental kernel: all distances and bearings 0. -/
def geoZero : Geo := ⟨fun _ _ => 0, fun _ _ => 0⟩

/-- A kernel whose distances are all 5 km. -/
def geoFive : Geo := ⟨fun _ _ => 5, fun _ _ => 0⟩

/-- A state with an explicitly false ground flag but heuristically
grounded altitude. -/
def acGroundFalse : Aircraft := { ground := some false, alt_baro := some 50 }

/-- A raw record whose lat field is present but fails float coercion. -/
def rawUncoercible : RawRecord :=
  { hex := RawVal.str "AB12CD", lat := RawVal.str "abc", lon := RawVal.num 9,
    alt_baro := RawVal.num 1000, gs := RawVal.num 120 }

/-- Concrete aircraft for the proximity witnesses. -/
def acA : Aircraft :=
  { hex := "aaa111", lat := some 45, lon := some 9, alt_baro := some 10000, gs := some 200 }

/-- Second concrete aircraft for the proximity witnesses. -/
def acB : Aircraft :=
  { hex := "bbb222", lat := some 45, lon := some 9, alt_baro := some 10000, gs := some 200 }

/-- An aircraft sitting exactly on the prime meridian. -/
def acZeroLon : Aircraft :=
  { hex := "ccc333", lat := some 45, lon := some 0, alt_baro := some 10000, gs := some 200 }

/- ---------------------------------------------------------------
Arithmetic facts about qmod.
---------------------------------------------------------------- -/

theorem qmod_decomp (a b : ℚ) : a = qmod a b + b * ⌊a / b⌋ := by
  unfold qmod; ring

theorem qmod_nonneg (a b : ℚ) (hb : 0 < b) : 0 ≤ qmod a b := by
  unfold qmod
  have h1 : (⌊a / b⌋ : ℚ) ≤ a / b := Int.floor_le _
  have h2 : b * (⌊a / b⌋ : ℚ) ≤ b * (a / b) := by
    exact mul_le_mul_of_nonneg_left h1 (le_of_lt hb)
  have h3 : b * (a / b) = a := by field_simp
  linarith

theorem qmod_lt (a b : ℚ) (hb : 0 < b) : qmod a b < b := by
  unfold qmod
  have h1 : a / b < (⌊a / b⌋ : ℚ) + 1 := Int.lt_floor_add_one _
  have h2 : b * (a / b) < b * ((⌊a / b⌋ : ℚ) + 1) := by
    exact mul_lt_mul_of_pos_left h1 hb
  have h3 : b * (a / b) = a := by field_simp
  nlinarith

theorem qmod_rep (a y b : ℚ) (k : ℤ) (hk : a = y + b * k) (h0 : 0 ≤ y) (h1 : y < b) :
    qmod a b = y := by
  have hb : 0 < b := lt_of_le_of_lt h0 h1
  have hbne : b ≠ 0 := ne_of_gt hb
  have hdiv : a / b = y / b + (k : ℚ) := by rw [hk]; field_simp; ring
  have hfl : ⌊y / b⌋ = 0 := by
    rw [Int.floor_eq_zero_iff]
    constructor
    · positivity
    · rw [div_lt_one hb]; exact h1
  have : ⌊a / b⌋ = k := by
    rw [hdiv, Int.floor_add_int, hfl, zero_add]
  unfold qmod
  rw [this, hk]; ring

theorem qmod_self_eq (y b : ℚ) (h0 : 0 ≤ y) (h1 : y < b) : qmod y b = y :=
  qmod_rep y y b 0 (by ring) h0 h1

theorem qmod_add_mul (a b : ℚ) (k : ℤ) (hb : 0 < b) : qmod (a + b * k) b = qmod a b := by
  have h0 := qmod_nonneg a b hb
  have h1 := qmod_lt a b hb
  exact qmod_rep _ _ _ (⌊a / b⌋ + k)
    (by rw [Int.cast_add]; nth_rewrite 1 [qmod_decomp a b]; ring) h0 h1

theorem qmod_fold (x : ℚ) : qmod (qmod x 180 + 180) 180 = qmod x 180 := by
  have h := qmod_add_mul (qmod x 180) 180 1 (by norm_num)
  have h2 : qmod (qmod x 180) 180 = qmod x 180 :=
    qmod_self_eq _ _ (qmod_nonneg x 180 (by norm_num)) (qmod_lt x 180 (by norm_num))
  simpa [h2] using h

theorem angle_diff_deg_comm (a b : ℚ) : angle_diff_deg a b = angle_diff_deg b a := by
  unfold angle_diff_deg
  rw [abs_sub_comm]

theorem same_direction_comm (h1 h2 : Option ℚ) (tol : ℚ) :
    same_direction h1 h2 tol = same_direction h2 h1 tol := by
  cases h1 <;> cases h2 <;> simp [same_direction, angle_diff_deg_comm]

/- ---------------------------------------------------------------
C1: ground-state derivation and the explicit ground flag.
---------------------------------------------------------------- -/

/-- C1 counterexample: a state whose ground flag is explicitly false is
nonetheless derived as grounded (altitude 50 ft, ground speed absent),
so the derived ground-state does not always equal the explicit flag
and the altitude/speed heuristics are consulted even when a flag is
present. -/
theorem ground_flag_false_counterexample :
    acGroundFalse.ground = some false ∧ is_ground_of acGroundFalse = true := by
  constructor
  · rfl
  · rfl

/-- C1 amended: the explicit ground flag short-circuits the derivation
only when it is true; a state whose flag is explicitly false is
treated exactly like a state with no flag at all, so the
altitude/speed heuristics still decide its ground-state. -/
theorem ground_flag_amended :
    (∀ ac : Aircraft, ac.ground = some true → is_ground_of ac = true) ∧
    (∀ ac : Aircraft, ac.ground = some false →
      is_ground_of ac = is_ground_of { ac with ground := none }) := by
  constructor
  · intro ac h
    simp [is_ground_of, h]
  · intro ac h
    simp [is_ground_of, h]

/-- Witness for C1 amended at concrete states. -/
theorem ground_flag_amended_witness :
    is_ground_of { ground := some true } = true ∧
    is_ground_of acGroundFalse = is_ground_of { acGroundFalse with ground := none } :=
  ⟨ground_flag_amended.1 { ground := some true } rfl,
   ground_flag_amended.2 acGroundFalse rfl⟩

/- ---------------------------------------------------------------
C2: the cooldown ledger.
---------------------------------------------------------------- -/

/-- C2: a cooldown check at time t succeeds iff t minus the recorded
time for the key (0 when absent) reaches the window; the record is
updated to t exactly on success; after a success at t1, a suppressed
check at t2 within the window leaves the ledger unchanged, and a third
check at t3 succeeds iff the window has elapsed since t1, the last
successful alert. -/
theorem cooldown_ledger_spec {K : Type} [DecidableEq K] (L : K → Option ℚ) (key : K)
    (w t1 t2 t3 : ℚ) (h1 : w ≤ t1 - (L key).getD 0) (h2 : t2 - t1 < w) :
    (∀ (M : K → Option ℚ) (t : ℚ),
        (checkAndMark M key t w).1 = true ↔ w ≤ t - (M key).getD 0) ∧
    (∀ (M : K → Option ℚ) (t : ℚ),
        (checkAndMark M key t w).1 = false → (checkAndMark M key t w).2 = M) ∧
    (checkAndMark L key t1 w).1 = true ∧
    (checkAndMark L key t1 w).2 key = some t1 ∧
    (checkAndMark (checkAndMark L key t1 w).2 key t2 w).1 = false ∧
    (checkAndMark (checkAndMark L key t1 w).2 key t2 w).2 = (checkAndMark L key t1 w).2 ∧
    ((checkAndMark (checkAndMark (checkAndMark L key t1 w).2 key t2 w).2 key t3 w).1 = true ↔
      w ≤ t3 - t1) := by
  have hiff : ∀ (M : K → Option ℚ) (t : ℚ),
      (checkAndMark M key t w).1 = true ↔ w ≤ t - (M key).getD 0 := by
    intro M t
    unfold checkAndMark
    split
    · rename_i hc
      simp [hc]
    · rename_i hc
      simp [hc]
  have hkeep : ∀ (M : K → Option ℚ) (t : ℚ),
      (checkAndMark M key t w).1 = false → (checkAndMark M key t w).2 = M := by
    intro M t hfalse
    unfold checkAndMark at hfalse ⊢
    split at hfalse
    · simp at hfalse
    · split
      · rename_i hc hc'
        exact absurd hc' hc
      · rfl
  set f1 : K → Option ℚ := fun k => if k = key then some t1 else L k with hf1
  have hL1 : checkAndMark L key t1 w = (true, f1) := by
    unfold checkAndMark
    rw [if_pos h1]
  have hf1key : f1 key = some t1 := by simp [hf1]
  have h2' : ¬ w ≤ t2 - (f1 key).getD 0 := by
    rw [hf1key]
    simpa using not_le.mpr h2
  have hsecond2 : checkAndMark f1 key t2 w = (false, f1) := by
    unfold checkAndMark
    rw [if_neg h2']
  refine ⟨hiff, hkeep, ?_, ?_, ?_, ?_, ?_⟩
  · rw [hL1]
  · rw [hL1]
    exact hf1key
  · rw [hL1]
    show (checkAndMark f1 key t2 w).1 = false
    rw [hsecond2]
  · rw [hL1]
    show (checkAndMark f1 key t2 w).2 = f1
    rw [hsecond2]
  · rw [hL1]
    show (checkAndMark (checkAndMark f1 key t2 w).2 key t3 w).1 = true ↔ w ≤ t3 - t1
    rw [hsecond2]
    show (checkAndMark f1 key t3 w).1 = true ↔ w ≤ t3 - t1
    rw [hiff, hf1key]
    simp

/-- Witness for C2 at a concrete key, window and times. -/
theorem cooldown_ledger_spec_witness :
    (checkAndMark (fun _ : ℕ => (none : Option ℚ)) 0 100 10).1 = true ∧
    (checkAndMark (checkAndMark (fun _ : ℕ => (none : Option ℚ)) 0 100 10).2 0 105 10).1
      = false ∧
    ((checkAndMark
        (checkAndMark (checkAndMark (fun _ : ℕ => (none : Option ℚ)) 0 100 10).2 0 105 10).2
        0 112 10).1 = true ↔ (10 : ℚ) ≤ 112 - 100) := by
  have h := cooldown_ledger_spec (fun _ : ℕ => (none : Option ℚ)) 0 10 100 105 112
    (by norm_num) (by norm_num)
  exact ⟨h.2.2.1, h.2.2.2.2.1, h.2.2.2.2.2.2⟩

/- ---------------------------------------------------------------
C3: detect_lawnmower can never fire.
---------------------------------------------------------------- -/

theorem lawnBtest_folded (base tol x : ℚ) : lawnBtest base tol (qmod x 180) = false := by
  unfold lawnBtest lawnAtest
  rw [qmod_fold]
  cases h : decide (angle_diff_deg (qmod x 180) base < tol) <;> simp [h]

theorem lawnClusterB_nil (g : Geo) (track : List (ℚ × ℚ)) (base tol : ℚ) :
    (lawnHeads g track).filter (lawnBtest base tol) = [] := by
  rw [List.filter_eq_nil_iff]
  intro a ha
  obtain ⟨pq, _, hsome⟩ := List.mem_filterMap.mp ha
  cases hh : heading g pq.1 pq.2 with
  | none => rw [hh] at hsome; simp at hsome
  | some h0 =>
      rw [hh] at hsome
      simp only [Option.map_some'] at hsome
      have ha2 : a = qmod h0 180 := (Option.some.inj hsome).symm
      rw [ha2, lawnBtest_folded]
      simp

/-- C3: for every track, every transcendental kernel and every
configuration asking for at least one pass, detect_lawnmower returns
false: the cluster-B test folds the already-folded bearing onto
itself, so it is the cluster-A test re-evaluated inside the branch
where that test has just failed, cluster B stays empty and the pass
count can never be met. -/
theorem lawnmower_always_false (g : Geo) (track : List (ℚ × ℚ)) (min_points : ℤ)
    (tol : ℚ) (required_passes : ℤ) (min_span : ℚ) (hrp : 1 ≤ required_passes) :
    detect_lawnmower g track min_points tol required_passes min_span = false := by
  simp only [detect_lawnmower]
  split
  · rfl
  split
  · rfl
  split
  · rfl
  have hcond : ((List.filter (lawnBtest (lawnBase (lawnHeads g track)) tol)
      (lawnHeads g track)).length : ℤ) < required_passes := by
    rw [lawnClusterB_nil]
    simp only [List.length_nil, Nat.cast_zero]
    omega
  rw [if_pos (Or.inr hcond)]

/-- Witness for C3 at a concrete kernel, track and configuration. -/
theorem lawnmower_always_false_witness :
    detect_lawnmower geoZero [((0 : ℚ), (0 : ℚ)), (1, 1)] 0 15 4 0 = false :=
  lawnmower_always_false geoZero [((0 : ℚ), (0 : ℚ)), (1, 1)] 0 15 4 0 (by norm_num)

/- ---------------------------------------------------------------
C4: the normaliser and uncoercible numeric fields.
---------------------------------------------------------------- -/

/-- C4 counterexample: a record whose lat field is present but fails
float coercion is not dropped — the normaliser still produces an
AircraftState (with the field absent), refuting the claim that such a
record yields no state. -/
theorem normalize_keeps_record_counterexample :
    rawUncoercible.lat ≠ RawVal.null ∧
    safe_float rawUncoercible.lat = none ∧
    (normalize rawUncoercible).isSome = true := by
  refine ⟨by decide, ?_, ?_⟩
  · rfl
  · rfl

/-- C4 amended: a present-but-uncoercible numeric field never drops
the record; the coercion failure is swallowed into an absent field and
the state is still produced. The whole record is dropped only when one
of the string-method calls (on the hex, flight or registration
fields) raises. -/
theorem normalize_keeps_uncoercible (rec : RawRecord)
    (hh : (pyLowerM (pyOr rec.hex (.str ""))).isSome = true)
    (hf : (pyStripM (pyOr rec.flight (.str ""))).isSome = true)
    (hr : (pyStripM (pyOr (pyOr rec.r rec.reg) (.str ""))).isSome = true) :
    ∃ st, normalize rec = some st ∧
      st.lat = safe_float rec.lat ∧ st.lon = safe_float rec.lon ∧
      st.alt_baro = safe_int rec.alt_baro ∧ st.gs = safe_float rec.gs ∧
      st.ts = safe_float (pyOr rec.seen_pos_timestamp rec.seen_timestamp) := by
  obtain ⟨hexs, hhex⟩ := Option.isSome_iff_exists.mp hh
  obtain ⟨flights, hflight⟩ := Option.isSome_iff_exists.mp hf
  obtain ⟨regs, hreg⟩ := Option.isSome_iff_exists.mp hr
  unfold normalize
  rw [hhex, hflight, hreg]
  exact ⟨_, rfl, rfl, rfl, rfl, rfl, rfl⟩

/-- Witness for C4 amended at the concrete uncoercible record. -/
theorem normalize_keeps_uncoercible_witness :
    ∃ st, normalize rawUncoercible = some st ∧
      st.lat = safe_float rawUncoercible.lat ∧
      st.lon = safe_float rawUncoercible.lon ∧
      st.alt_baro = safe_int rawUncoercible.alt_baro ∧
      st.gs = safe_float rawUncoercible.gs ∧
      st.ts = safe_float
        (pyOr rawUncoercible.seen_pos_timestamp rawUncoercible.seen_timestamp) :=
  normalize_keeps_uncoercible rawUncoercible rfl rfl rfl

/- ---------------------------------------------------------------
C5: proximity classification is symmetric.
---------------------------------------------------------------- -/

theorem alt_gate_comm (a1 a2 : Option ℤ) (thr : ℚ) :
    alt_gate a1 a2 thr = alt_gate a2 a1 thr := by
  cases a1 <;> cases a2 <;> simp [alt_gate, abs_sub_comm]

theorem gs_gate_comm (g1 g2 : Option ℚ) (thr : ℚ) :
    gs_gate g1 g2 thr = gs_gate g2 g1 thr := by
  cases g1 <;> cases g2 <;> simp [gs_gate, abs_sub_comm]

/-- C5: swapping the two aircraft (together with their derived current
headings) in the pairwise proximity check yields the same outcome:
the same pass/fail of every gate and the same label, because every
gate is symmetric (given a symmetric distance kernel, as the haversine
formula is) and the pursuit condition is tried in both leader/follower
directions. -/
theorem prox_pair_symm (g : Geo) (hsym : ∀ p q, g.hav p q = g.hav q p)
    (pk pa pal pgs : ℚ) (ac1 ac2 : Aircraft) (h1 h2 : Option ℚ) :
    proxPairCheck g pk pa pal pgs ac1 ac2 h1 h2 =
    proxPairCheck g pk pa pal pgs ac2 ac1 h2 h1 := by
  simp only [proxPairCheck]
  by_cases t1 : posTruthy ac1.lat ac1.lon = false
  · by_cases t2 : posTruthy ac2.lat ac2.lon = false
    · rw [if_pos t1, if_pos t2]
    · rw [if_pos t1, if_neg t2, if_pos t1]
  · by_cases t2 : posTruthy ac2.lat ac2.lon = false
    · rw [if_neg t1, if_pos t2, if_pos t2]
    · rw [if_neg t1, if_neg t2, if_neg t2, if_neg t1]
      by_cases hhex : ac1.hex = ac2.hex
      · rw [if_pos hhex, if_pos (show ac2.hex = ac1.hex from hhex.symm)]
      · rw [if_neg hhex, if_neg (show ¬ ac2.hex = ac1.hex from fun h => hhex h.symm)]
        rw [hsym (ac1.lat.getD 0, ac1.lon.getD 0) (ac2.lat.getD 0, ac2.lon.getD 0)]
        rw [alt_gate_comm ac1.alt_baro ac2.alt_baro pal]
        rw [gs_gate_comm ac1.gs ac2.gs pgs]
        rw [same_direction_comm h1 h2 pa]
        rw [Bool.or_comm
          (approx_following g (ac1.lat.getD 0, ac1.lon.getD 0) h1
            (ac2.lat.getD 0, ac2.lon.getD 0) h2 pa)
          (approx_following g (ac2.lat.getD 0, ac2.lon.getD 0) h2
            (ac1.lat.getD 0, ac1.lon.getD 0) h1 pa)]

/-- Witness for C5 at a concrete kernel and pair of states. -/
theorem prox_pair_symm_witness :
    proxPairCheck geoZero 3 20 500 40 acA acB (some 90) (some 90) =
    proxPairCheck geoZero 3 20 500 40 acB acA (some 90) (some 90) :=
  prox_pair_symm geoZero (fun _ _ => rfl) 3 20 500 40 acA acB (some 90) (some 90)

/- ---------------------------------------------------------------
C6: the MESH family assignment.
---------------------------------------------------------------- -/

/-- C6 counterexample: with tolerance 10 and the perpendicular axis
pair (0, 80) — a pair the detector can select, since their separation
is within 10 of 90 — the bearing 170 lies within folded tolerance of
axis 0 (folded distance exactly 10) yet the family test assigns it to
no family at all: the test is a one-sided window, not a folded
nearest-axis rule. -/
theorem mesh_family_nearest_counterexample :
    |qmod ((0 : ℚ) - 80 + 180) 180 - 90| ≤ 10 ∧
    foldedDist 170 0 ≤ 10 ∧
    family 170 0 80 10 = none := by
  refine ⟨?_, ?_, ?_⟩
  · norm_num [qmod]
  · norm_num [foldedDist, qmod]
  · norm_num [family, qmod]

/-- C6 amended: the family test assigns h to A iff (h-a) mod 180 is
within the tolerance (a one-sided window), else to B by the same test
against b, and may leave a bearing within folded tolerance of an axis
unassigned; but whenever the tolerance is below 30 degrees and the
two axes are perpendicular within the tolerance, every bearing that
does get assigned goes to the axis it is strictly closest to in
antiparallel-folded mod-180 distance. -/
theorem mesh_family_one_sided_amended (h a b tol : ℚ) (f : String)
    (htol : tol < 30)
    (hperp : |qmod (a - b + 180) 180 - 90| ≤ tol)
    (hfam : family h a b tol = some f) :
    (f = "A" ∧ foldedDist h a < foldedDist h b) ∨
    (f = "B" ∧ foldedDist h b < foldedDist h a) := by
  have e180 : ∀ x : ℚ, qmod (x + 180) 180 = qmod x 180 := by
    intro x
    have := qmod_add_mul x 180 1 (by norm_num)
    simpa using this
  rw [e180 (a - b)] at hperp
  unfold family at hfam
  rw [e180 (h - a), e180 (h - b)] at hfam
  have h180 : (0 : ℚ) < 180 := by norm_num
  set u := qmod (h - a) 180 with hu
  set v := qmod (h - b) 180 with hv
  set s := qmod (a - b) 180 with hs
  have hu0 : 0 ≤ u := qmod_nonneg _ _ h180
  have hv0 : 0 ≤ v := qmod_nonneg _ _ h180
  have hs0 : 0 ≤ s := qmod_nonneg _ _ h180
  have hu1 : u < 180 := qmod_lt _ _ h180
  have hv1 : v < 180 := qmod_lt _ _ h180
  have hs1 : s < 180 := qmod_lt _ _ h180
  have htol0 : 0 ≤ tol := le_trans (abs_nonneg _) hperp
  have hsl : 90 - tol ≤ s := by
    have := (abs_le.mp hperp).1
    linarith
  have hsu : s ≤ 90 + tol := by
    have := (abs_le.mp hperp).2
    linarith
  obtain ⟨k1, hk1⟩ : ∃ k : ℤ, h - a = u + 180 * (k : ℚ) :=
    ⟨⌊(h - a) / 180⌋, by rw [hu]; exact qmod_decomp _ _⟩
  obtain ⟨k2, hk2⟩ : ∃ k : ℤ, a - b = s + 180 * (k : ℚ) :=
    ⟨⌊(a - b) / 180⌋, by rw [hs]; exact qmod_decomp _ _⟩
  obtain ⟨k3, hk3⟩ : ∃ k : ℤ, h - b = v + 180 * (k : ℚ) :=
    ⟨⌊(h - b) / 180⌋, by rw [hv]; exact qmod_decomp _ _⟩
  by_cases cA : |u| ≤ tol
  · rw [if_pos cA] at hfam
    have hf : f = "A" := (Option.some.inj hfam).symm
    left
    refine ⟨hf, ?_⟩
    have hut : u ≤ tol := by rwa [abs_of_nonneg hu0] at cA
    have hsum0 : 0 ≤ u + s := by linarith
    have hsumub : u + s < 180 := by linarith
    have hvb : qmod (h - b) 180 = u + s :=
      qmod_rep _ _ _ (k1 + k2)
        (by rw [show h - b = (h - a) + (a - b) from by ring, hk1, hk2]; push_cast; ring)
        hsum0 hsumub
    have hsumpos : 0 < u + s := by linarith
    have hbh : qmod (b - h) 180 = 180 - (u + s) :=
      qmod_rep _ _ _ (-(k1 + k2) - 1)
        (by rw [show b - h = -((h - a) + (a - b)) from by ring, hk1, hk2]; push_cast; ring)
        (by linarith) (by linarith)
    have hfa : foldedDist h a ≤ u := by
      unfold foldedDist
      rw [← hu]
      exact min_le_left _ _
    have hfb : tol < foldedDist h b := by
      unfold foldedDist
      rw [hvb, hbh]
      exact lt_min (by linarith) (by linarith)
    exact lt_of_le_of_lt (le_trans hfa hut) hfb
  · rw [if_neg cA] at hfam
    by_cases cB : |v| ≤ tol
    · rw [if_pos cB] at hfam
      have hf : f = "B" := (Option.some.inj hfam).symm
      right
      refine ⟨hf, ?_⟩
      have hvt : v ≤ tol := by rwa [abs_of_nonneg hv0] at cB
      have hsum0 : 0 ≤ v + (180 - s) := by linarith
      have hsumub : v + (180 - s) < 180 := by linarith
      have hha : qmod (h - a) 180 = v + (180 - s) :=
        qmod_rep _ _ _ (k3 + (-k2 - 1))
          (by rw [show h - a = (h - b) - (a - b) from by ring, hk3, hk2]; push_cast; ring)
          hsum0 hsumub
      have hah : qmod (a - h) 180 = 180 - (v + (180 - s)) :=
        qmod_rep _ _ _ (-(k3 + (-k2 - 1)) - 1)
          (by rw [show a - h = -((h - b) - (a - b)) from by ring, hk3, hk2]; push_cast; ring)
          (by linarith) (by linarith)
      have hfb2 : foldedDist h b ≤ v := by
        unfold foldedDist
        rw [← hv]
        exact min_le_left _ _
      have hfa2 : tol < foldedDist h a := by
        unfold foldedDist
        rw [hha, hah]
        exact lt_min (by linarith) (by linarith)
      exact lt_of_le_of_lt (le_trans hfb2 hvt) hfa2
    · rw [if_neg cB] at hfam
      exact absurd hfam (by simp)

/-- Witness for C6 amended: bearing 10 with axes 0 and 90 at tolerance
10 is assigned to family A and is indeed strictly folded-closest to
axis 0. -/
theorem mesh_family_one_sided_amended_witness :
    (("A" : String) = "A" ∧ foldedDist 10 0 < foldedDist 10 90) ∨
    (("A" : String) = "B" ∧ foldedDist 10 90 < foldedDist 10 0) :=
  mesh_family_one_sided_amended 10 0 90 10 "A" (by norm_num)
    (by norm_num [qmod]) (by norm_num [family, qmod])

/- ---------------------------------------------------------------
C7: the emergency-squawk scenario.
---------------------------------------------------------------- -/

/-- C7: with the default thresholds and no previous state, a state
with squawk 7700, altitude 15000 ft and ground speed 300 kt yields
exactly the singleton finding list with the squawk message: no speed,
altitude, vertical-rate or speed-delta findings. -/
theorem anomaly_squawk_only_scenario :
    detect_anomalies
      { alt_baro := some 15000, gs := some 300, squawk := some "7700" }
      none none 500 60000 35 650 8000 250 = ["SQUAWK: #7700"] := by
  rfl

/- ---------------------------------------------------------------
C8: LOOP/RACETRACK rejects tracks that do not close.
---------------------------------------------------------------- -/

/-- C8: whenever the kernel distance between the first and last track
points exceeds the close threshold, detect_loop_or_racetrack returns
none, whatever the remaining parameters and the rest of the track. -/
theorem loop_rejects_far_endpoints (g : Geo) (p0 : ℚ × ℚ) (rest : List (ℚ × ℚ))
    (close : ℚ) (mp : ℤ) (ms : ℚ) (ml : ℤ)
    (hfar : close < g.hav p0 ((p0 :: rest).getLast (List.cons_ne_nil p0 rest))) :
    detect_loop_or_racetrack g (p0 :: rest) close mp ms ml = none := by
  simp only [detect_loop_or_racetrack]
  rw [if_pos hfar]
  split
  · rfl
  · rfl

/-- Witness for C8 at a concrete kernel and track. -/
theorem loop_rejects_far_endpoints_witness :
    detect_loop_or_racetrack geoFive [((0 : ℚ), (0 : ℚ)), (1, 1)] 3 2 10 2 = none :=
  loop_rejects_far_endpoints geoFive (0, 0) [(1, 1)] 3 2 10 2 (by norm_num [geoFive])

/- ---------------------------------------------------------------
C9: the bounded track history.
---------------------------------------------------------------- -/

theorem appendTrack_lt (h : List (ℚ × ℚ)) (la lo : ℚ) (hlen : h.length < 120) :
    appendTrack h (some la) (some lo) = h ++ [(la, lo)] := by
  have hc : ¬ 120 < (h ++ [(la, lo)]).length := by
    simp only [List.length_append, List.length_cons, List.length_nil]
    omega
  simp only [appendTrack]
  rw [if_neg hc]

theorem appendTrack_full (h : List (ℚ × ℚ)) (la lo : ℚ) (hlen : h.length = 120) :
    appendTrack h (some la) (some lo) = h.tail ++ [(la, lo)] := by
  cases h with
  | nil => simp at hlen
  | cons c t =>
      have hc : 120 < ((c :: t) ++ [(la, lo)]).length := by
        simp only [List.length_append, List.length_cons, List.length_nil]
        simp only [List.length_cons] at hlen
        omega
      have hd : ((c :: t) ++ [(la, lo)]).length - 120 = 1 := by
        simp only [List.length_append, List.length_cons, List.length_nil]
        simp only [List.length_cons] at hlen
        omega
      simp only [appendTrack]
      rw [if_pos hc, hd]
      simp

theorem appendTrack_le (h : List (ℚ × ℚ)) (la lo : Option ℚ) (hh : h.length ≤ 120) :
    (appendTrack h la lo).length ≤ 120 := by
  cases la with
  | none => exact hh
  | some x =>
      cases lo with
      | none => exact hh
      | some y =>
          simp only [appendTrack]
          split
          · rw [List.length_drop]
            omega
          · rename_i hle
            simp only [List.length_append, List.length_cons, List.length_nil] at hle ⊢
            omega

theorem runTrack_le (ops : List (Option ℚ × Option ℚ)) : (runTrack ops).length ≤ 120 := by
  suffices hgen : ∀ (l : List (Option ℚ × Option ℚ)) (acc : List (ℚ × ℚ)),
      acc.length ≤ 120 → (l.foldl (fun h op => appendTrack h op.1 op.2) acc).length ≤ 120 by
    exact hgen ops [] (by simp)
  intro l
  induction l with
  | nil =>
      intro acc h
      simpa using h
  | cons x xs ih =>
      intro acc h
      simp only [List.foldl_cons]
      exact ih _ (appendTrack_le _ _ _ h)

/-- C9: a track history built by appends never exceeds 120 entries;
an append to a non-full history appends at the end, an append to a
full history evicts exactly the oldest entry, and a state missing
either coordinate leaves the history unchanged. -/
theorem track_history_spec :
    (∀ ops : List (Option ℚ × Option ℚ), (runTrack ops).length ≤ 120) ∧
    (∀ (h : List (ℚ × ℚ)) (la lo : ℚ), h.length < 120 →
        appendTrack h (some la) (some lo) = h ++ [(la, lo)]) ∧
    (∀ (h : List (ℚ × ℚ)) (la lo : ℚ), h.length = 120 →
        appendTrack h (some la) (some lo) = h.tail ++ [(la, lo)]) ∧
    (∀ (h : List (ℚ × ℚ)) (lo : Option ℚ), appendTrack h none lo = h) ∧
    (∀ (h : List (ℚ × ℚ)) (la : Option ℚ), appendTrack h la none = h) :=
  ⟨runTrack_le, appendTrack_lt, appendTrack_full,
   fun _ _ => rfl,
   fun _ la => by cases la <;> rfl⟩

/-- Witness for C9 at concrete histories. -/
theorem track_history_spec_witness :
    (runTrack [(some 1, some 2)]).length ≤ 120 ∧
    appendTrack [((1 : ℚ), (2 : ℚ))] (some 3) (some 4) = [((1 : ℚ), (2 : ℚ))] ++ [(3, 4)] ∧
    appendTrack (List.replicate 120 ((0 : ℚ), (0 : ℚ))) (some 3) (some 4)
      = (List.replicate 120 ((0 : ℚ), (0 : ℚ))).tail ++ [(3, 4)] ∧
    appendTrack [((1 : ℚ), (2 : ℚ))] none (some 5) = [((1 : ℚ), (2 : ℚ))] ∧
    appendTrack [((1 : ℚ), (2 : ℚ))] (some 5) none = [((1 : ℚ), (2 : ℚ))] :=
  ⟨track_history_spec.1 _,
   track_history_spec.2.1 _ 3 4 (by norm_num),
   track_history_spec.2.2.1 _ 3 4 (by simp),
   track_history_spec.2.2.2.1 _ _,
   track_history_spec.2.2.2.2 _ _⟩

/- ---------------------------------------------------------------
C10: zero coordinates and the truthiness position test.
---------------------------------------------------------------- -/

theorem posTruthy_zero (lat lon : Option ℚ) (hz : lat = some 0 ∨ lon = some 0) :
    posTruthy lat lon = false := by
  rcases hz with h | h
  · rw [h]
    cases lon <;> simp [posTruthy]
  · rw [h]
    cases lat <;> simp [posTruthy]

/-- C10: an aircraft whose latitude or longitude is exactly 0 is
skipped by the truthiness position test of the proximity loop, so no
pair containing it can produce a PROX event, even though the position
is known; the track-history append, which tests for None instead,
does append such coordinates. -/
theorem prox_zero_coordinate_skip :
    (∀ (g : Geo) (pk pa pal pgs : ℚ) (ac1 ac2 : Aircraft) (h1 h2 : Option ℚ),
        ac1.lat = some 0 ∨ ac1.lon = some 0 ∨ ac2.lat = some 0 ∨ ac2.lon = some 0 →
        proxPairCheck g pk pa pal pgs ac1 ac2 h1 h2 = none) ∧
    (∀ (h : List (ℚ × ℚ)) (la : ℚ), h.length < 120 →
        appendTrack h (some 0) (some la) = h ++ [(0, la)]) := by
  constructor
  · intro g pk pa pal pgs ac1 ac2 h1 h2 hz
    simp only [proxPairCheck]
    rcases hz with h | h | h | h
    · rw [if_pos (posTruthy_zero _ _ (Or.inl h))]
    · rw [if_pos (posTruthy_zero _ _ (Or.inr h))]
    · by_cases t1 : posTruthy ac1.lat ac1.lon = false
      · rw [if_pos t1]
      · rw [if_neg t1, if_pos (posTruthy_zero _ _ (Or.inl h))]
    · by_cases t1 : posTruthy ac1.lat ac1.lon = false
      · rw [if_pos t1]
      · rw [if_neg t1, if_pos (posTruthy_zero _ _ (Or.inr h))]
  · intro h la hlen
    exact appendTrack_lt h 0 la hlen

/-- Witness for C10: a pair with one aircraft on the prime meridian
produces no PROX event, while the same coordinates are appended to the
track history. -/
theorem prox_zero_coordinate_skip_witness :
    proxPairCheck geoZero 3 20 500 40 acZeroLon acA (some 90) (some 90) = none ∧
    appendTrack [((1 : ℚ), (2 : ℚ))] (some 0) (some 9) = [((1 : ℚ), (2 : ℚ))] ++ [(0, 9)] :=
  ⟨prox_zero_coordinate_skip.1 geoZero 3 20 500 40 acZeroLon acA (some 90) (some 90)
      (Or.inr (Or.inl rfl)),
   prox_zero_coordinate_skip.2 _ 9 (by norm_num)⟩

end FlightAnom
